import Mathlib

/-!
Shallow embedding of the tax engine of blastum/taxis
(src/taxCalculator.ts; src/unnamed/part_000 is a 2024-only copy of the
same logic).  JavaScript numbers are modelled as exact rationals.
Property access on a missing key of the year table or of a
filing-status-keyed object makes the JS functions throw a TypeError
before returning (the undefined value is iterated over or destructured);
this throwing behaviour is modelled with Option, none standing for the
thrown error.
-/

/-- TaxBracket row of the ordinary-income tax tables: fields min, max and rate
of the source objects.  A max of none models the literal Infinity. -/
structure TaxBracket where
  min : ℚ
  max : Option ℚ
  rate : ℚ
deriving DecidableEq

/-- Result of Math.min(x, m) where m may be Infinity (none). -/
def minOrInf (x : ℚ) : Option ℚ → ℚ
  | none => x
  | some m => min x m

/-- Embeds calculateTaxFromBrackets (src/taxCalculator.ts lines 109-120):
walk the brackets in order, break at the first bracket with
income <= bracket.min, otherwise add (Math.min(income, bracket.max) - bracket.min) * rate. -/
def calculateTaxFromBrackets (income : ℚ) : List TaxBracket → ℚ
  | [] => 0
  | b :: rest =>
    if income ≤ b.min then 0
    else (minOrInf income b.max - b.min) * b.rate + calculateTaxFromBrackets income rest

/-- Filing-status-keyed object with the three keys used by every map in
TAX_YEAR_DATA. -/
structure StatusMap (α : Type) where
  single : α
  marriedFilingJointly : α
  marriedFilingSeparately : α
deriving DecidableEq

/-- JS property lookup on a filing-status-keyed object: a key other than
the three declared ones yields undefined, modelled as none (the callers
in the source then throw before returning a result). -/
def StatusMap.get {α : Type} (m : StatusMap α) (s : String) : Option α :=
  if s = "single" then some m.single
  else if s = "marriedFilingJointly" then some m.marriedFilingJointly
  else if s = "marriedFilingSeparately" then some m.marriedFilingSeparately
  else none

/-- The ltcgThresholds entries: zero and fifteen rate ceilings. -/
structure LtcgThresholds where
  zero : ℚ
  fifteen : ℚ
deriving DecidableEq

/-- Per-year entry of TAX_YEAR_DATA. -/
structure TaxYearData where
  standardDeductions : StatusMap ℚ
  seniorAdditionalDeduction : StatusMap ℚ
  taxBrackets : StatusMap (List TaxBracket)
  ltcgThresholds : StatusMap LtcgThresholds
  niitThresholds : StatusMap ℚ

/-- The 2024 entry of TAX_YEAR_DATA (src/taxCalculator.ts lines 5-55). -/
def data2024 : TaxYearData where
  standardDeductions := { single := 14600, marriedFilingJointly := 29200, marriedFilingSeparately := 14600 }
  seniorAdditionalDeduction := { single := 1950, marriedFilingJointly := 1550, marriedFilingSeparately := 1550 }
  taxBrackets :=
    { single :=
        [⟨0, some 11600, 0.10⟩, ⟨11600, some 47150, 0.12⟩, ⟨47150, some 100525, 0.22⟩,
         ⟨100525, some 191950, 0.24⟩, ⟨191950, some 243725, 0.32⟩, ⟨243725, some 609350, 0.35⟩,
         ⟨609350, none, 0.37⟩],
      marriedFilingJointly :=
        [⟨0, some 23200, 0.10⟩, ⟨23200, some 94300, 0.12⟩, ⟨94300, some 201050, 0.22⟩,
         ⟨201050, some 383900, 0.24⟩, ⟨383900, some 487450, 0.32⟩, ⟨487450, some 731200, 0.35⟩,
         ⟨731200, none, 0.37⟩],
      marriedFilingSeparately :=
        [⟨0, some 11600, 0.10⟩, ⟨11600, some 47150, 0.12⟩, ⟨47150, some 100525, 0.22⟩,
         ⟨100525, some 191950, 0.24⟩, ⟨191950, some 243725, 0.32⟩, ⟨243725, some 365600, 0.35⟩,
         ⟨365600, none, 0.37⟩] }
  ltcgThresholds :=
    { single := ⟨47025, 518900⟩, marriedFilingJointly := ⟨94050, 583750⟩,
      marriedFilingSeparately := ⟨47025, 291850⟩ }
  niitThresholds := { single := 200000, marriedFilingJointly := 250000, marriedFilingSeparately := 125000 }

/-- The 2025 entry of TAX_YEAR_DATA (src/taxCalculator.ts lines 56-106). -/
def data2025 : TaxYearData where
  standardDeductions := { single := 15000, marriedFilingJointly := 30000, marriedFilingSeparately := 15000 }
  seniorAdditionalDeduction := { single := 2000, marriedFilingJointly := 1600, marriedFilingSeparately := 1600 }
  taxBrackets :=
    { single :=
        [⟨0, some 11925, 0.10⟩, ⟨11925, some 48475, 0.12⟩, ⟨48475, some 103350, 0.22⟩,
         ⟨103350, some 197300, 0.24⟩, ⟨197300, some 250525, 0.32⟩, ⟨250525, some 626350, 0.35⟩,
         ⟨626350, none, 0.37⟩],
      marriedFilingJointly :=
        [⟨0, some 23850, 0.10⟩, ⟨23850, some 96950, 0.12⟩, ⟨96950, some 206700, 0.22⟩,
         ⟨206700, some 394600, 0.24⟩, ⟨394600, some 501050, 0.32⟩, ⟨501050, some 751600, 0.35⟩,
         ⟨751600, none, 0.37⟩],
      marriedFilingSeparately :=
        [⟨0, some 11925, 0.10⟩, ⟨11925, some 48475, 0.12⟩, ⟨48475, some 103350, 0.22⟩,
         ⟨103350, some 197300, 0.24⟩, ⟨197300, some 250525, 0.32⟩, ⟨250525, some 375800, 0.35⟩,
         ⟨375800, none, 0.37⟩] }
  ltcgThresholds :=
    { single := ⟨48475, 535925⟩, marriedFilingJointly := ⟨96950, 601650⟩,
      marriedFilingSeparately := ⟨48475, 300825⟩ }
  niitThresholds := { single := 200000, marriedFilingJointly := 250000, marriedFilingSeparately := 125000 }

/-- Year lookup TAX_YEAR_DATA[year]: undefined (none) for any year other
than the two literal keys 2024 and 2025. -/
def TAX_YEAR_DATA (year : Nat) : Option TaxYearData :=
  if year = 2024 then some data2024
  else if year = 2025 then some data2025
  else none

/-- TaxInputs of src/types.ts, with taxYear as it appears in the
multi-year schema.  filingStatus is kept as the raw string key so that
lookup failure is representable. -/
structure TaxInputs where
  taxYear : Nat
  filingStatus : String
  ordinaryIncome : ℚ
  ordinaryEarnings : ℚ
  longTermCapitalGains : ℚ
  capitalLosses : ℚ
  seniors65Plus : ℚ
deriving DecidableEq

/-- TaxResults of src/types.ts. -/
structure TaxResults where
  standardDeduction : ℚ
  seniorDeduction : ℚ
  totalDeductions : ℚ
  taxableIncome : ℚ
  ordinaryTax : ℚ
  capitalGainsTax : ℚ
  niitTax : ℚ
  totalTax : ℚ
  effectiveRate : ℚ
deriving DecidableEq

/-- Line 130: ordinaryGross = ordinaryIncome + ordinaryEarnings. -/
def ordinaryGross (i : TaxInputs) : ℚ := i.ordinaryIncome + i.ordinaryEarnings

/-- Line 131: netCapitalGains = Math.max(0, longTermCapitalGains - capitalLosses). -/
def netCapitalGains (i : TaxInputs) : ℚ := max 0 (i.longTermCapitalGains - i.capitalLosses)

/-- Line 134: totalIncome (losses applied against total income, not clamped). -/
def totalIncome (i : TaxInputs) : ℚ :=
  i.ordinaryIncome + i.ordinaryEarnings + i.longTermCapitalGains - i.capitalLosses

/-- Line 138: ordinaryTaxable = Math.max(0, ordinaryGross - totalDeductions). -/
def ordinaryTaxable (totalDeductions : ℚ) (i : TaxInputs) : ℚ :=
  max 0 (ordinaryGross i - totalDeductions)

/-- Line 139: deductionLeftoverForLTCG = Math.max(0, totalDeductions - ordinaryGross). -/
def deductionLeftoverForLTCG (totalDeductions : ℚ) (i : TaxInputs) : ℚ :=
  max 0 (totalDeductions - ordinaryGross i)

/-- Line 140: ltcgTaxable = Math.max(0, netCapitalGains - deductionLeftoverForLTCG). -/
def ltcgTaxable (totalDeductions : ℚ) (i : TaxInputs) : ℚ :=
  max 0 (netCapitalGains i - deductionLeftoverForLTCG totalDeductions i)

/-- Line 148: zeroPortion = Math.min(remainingLTCG, Math.max(0, zeroThreshold - ordinaryTaxable)),
with remainingLTCG = ltcgTaxable at this point. -/
def zeroPortion (zeroThreshold totalDeductions : ℚ) (i : TaxInputs) : ℚ :=
  min (ltcgTaxable totalDeductions i) (max 0 (zeroThreshold - ordinaryTaxable totalDeductions i))

/-- Line 150: fifteenPortion, where remainingLTCG = ltcgTaxable - zeroPortion. -/
def fifteenPortion (zeroThreshold fifteenThreshold totalDeductions : ℚ) (i : TaxInputs) : ℚ :=
  min (ltcgTaxable totalDeductions i - zeroPortion zeroThreshold totalDeductions i)
    (max 0 (fifteenThreshold - ordinaryTaxable totalDeductions i - zeroPortion zeroThreshold totalDeductions i))

/-- Line 152: twentyPortion = Math.max(0, remainingLTCG) after both subtractions. -/
def twentyPortion (zeroThreshold fifteenThreshold totalDeductions : ℚ) (i : TaxInputs) : ℚ :=
  max 0 (ltcgTaxable totalDeductions i - zeroPortion zeroThreshold totalDeductions i
    - fifteenPortion zeroThreshold fifteenThreshold totalDeductions i)

/-- Line 153: capitalGainsTax = zeroPortion * 0 + fifteenPortion * 0.15 + twentyPortion * 0.20. -/
def capitalGainsTaxOf (zeroThreshold fifteenThreshold totalDeductions : ℚ) (i : TaxInputs) : ℚ :=
  zeroPortion zeroThreshold totalDeductions i * 0
    + fifteenPortion zeroThreshold fifteenThreshold totalDeductions i * 0.15
    + twentyPortion zeroThreshold fifteenThreshold totalDeductions i * 0.20

/-- Line 156: magiApprox = ordinaryGross + netCapitalGains. -/
def magiApprox (i : TaxInputs) : ℚ := ordinaryGross i + netCapitalGains i

/-- Line 157: netInvestmentIncome = Math.max(0, ordinaryEarnings) + netCapitalGains. -/
def netInvestmentIncome (i : TaxInputs) : ℚ := max 0 i.ordinaryEarnings + netCapitalGains i

/-- Line 159: niitExcess = Math.max(0, magiApprox - niitThreshold). -/
def niitExcess (niitThreshold : ℚ) (i : TaxInputs) : ℚ := max 0 (magiApprox i - niitThreshold)

/-- Line 160: niitTax = 0.038 * Math.min(netInvestmentIncome, niitExcess). -/
def niitTaxOf (niitThreshold : ℚ) (i : TaxInputs) : ℚ :=
  0.038 * min (netInvestmentIncome i) (niitExcess niitThreshold i)

/-- Body of calculateTax after the five table lookups (src/taxCalculator.ts
lines 126-175). -/
def coreResults (standardDeduction seniorDeductionPerPerson : ℚ) (brackets : List TaxBracket)
    (thresholds : LtcgThresholds) (niitThreshold : ℚ) (i : TaxInputs) : TaxResults :=
  let seniorDeduction := i.seniors65Plus * seniorDeductionPerPerson
  let totalDeductions := standardDeduction + seniorDeduction
  let ordinaryTax := calculateTaxFromBrackets (ordinaryTaxable totalDeductions i) brackets
  let capitalGainsTax := capitalGainsTaxOf thresholds.zero thresholds.fifteen totalDeductions i
  let niitTax := niitTaxOf niitThreshold i
  let totalTax := ordinaryTax + capitalGainsTax + niitTax
  { standardDeduction := standardDeduction
    seniorDeduction := seniorDeduction
    totalDeductions := totalDeductions
    taxableIncome := max 0 (totalIncome i - totalDeductions)
    ordinaryTax := ordinaryTax
    capitalGainsTax := capitalGainsTax
    niitTax := niitTax
    totalTax := totalTax
    effectiveRate := if 0 < totalIncome i then totalTax / totalIncome i * 100 else 0 }

/-- Embeds calculateTax (src/taxCalculator.ts lines 122-176): the five
table lookups followed by the pure computation. -/
def calculateTax (i : TaxInputs) : Option TaxResults := do
  let taxData ← TAX_YEAR_DATA i.taxYear
  let standardDeduction ← taxData.standardDeductions.get i.filingStatus
  let seniorDeductionPerPerson ← taxData.seniorAdditionalDeduction.get i.filingStatus
  let brackets ← taxData.taxBrackets.get i.filingStatus
  let thresholds ← taxData.ltcgThresholds.get i.filingStatus
  let niitThreshold ← taxData.niitThresholds.get i.filingStatus
  pure (coreResults standardDeduction seniorDeductionPerPerson brackets thresholds niitThreshold i)

/-- One row pushed onto ordinaryTaxBrackets in calculateDetailedTaxBreakdown.
The range label string (presentation only) is omitted. -/
structure BracketLine where
  amount : ℚ
  rate : ℚ
  tax : ℚ
deriving DecidableEq

/-- Detailed ordinary tax loop (src/taxCalculator.ts lines 198-214):
taxableInBracket = Math.min(remainingIncome, bracket.max - bracket.min),
pushed when positive, subtracted from remainingIncome. -/
def ordinaryTaxBracketLines (remainingIncome : ℚ) : List TaxBracket → List BracketLine
  | [] => []
  | b :: rest =>
    if remainingIncome ≤ 0 then []
    else
      let taxableInBracket := minOrInf remainingIncome (b.max.map (fun m => m - b.min))
      if 0 < taxableInBracket then
        ⟨taxableInBracket, b.rate, taxableInBracket * b.rate⟩
          :: ordinaryTaxBracketLines (remainingIncome - taxableInBracket) rest
      else ordinaryTaxBracketLines remainingIncome rest

/-- Amount/tax pair of a capital-gains tier in the detailed breakdown. -/
structure TierLine where
  amount : ℚ
  tax : ℚ
deriving DecidableEq

/-- The income section of DetailedTaxBreakdown. -/
structure IncomeDetail where
  totalStandardIncome : ℚ
  longTermCapitalGains : ℚ
  capitalLosses : ℚ
deriving DecidableEq

/-- The deductions section of DetailedTaxBreakdown. -/
structure DeductionsDetail where
  standardDeduction : ℚ
  seniorDeduction : ℚ
  seniorDeductionPerPerson : ℚ
  totalDeductions : ℚ
deriving DecidableEq

/-- The ordinaryTax section of DetailedTaxBreakdown. -/
structure OrdinaryTaxDetail where
  taxableOrdinaryIncome : ℚ
  brackets : List BracketLine
deriving DecidableEq

/-- The capitalGainsTax section of DetailedTaxBreakdown. -/
structure CapitalGainsDetail where
  taxableCapitalGains : ℚ
  zeroBracket : TierLine
  fifteenBracket : TierLine
  twentyBracket : TierLine
deriving DecidableEq

/-- The niit section of DetailedTaxBreakdown. -/
structure NiitDetail where
  magi : ℚ
  threshold : ℚ
  excess : ℚ
  netInvestmentIncome : ℚ
  niitAmount : ℚ
deriving DecidableEq

/-- DetailedTaxBreakdown of src/types.ts (numeric content; range label
strings omitted). -/
structure DetailedTaxBreakdown where
  income : IncomeDetail
  deductions : DeductionsDetail
  ordinaryTax : OrdinaryTaxDetail
  capitalGainsTax : CapitalGainsDetail
  niit : NiitDetail
deriving DecidableEq

/-- Body of calculateDetailedTaxBreakdown after the five table lookups
(src/taxCalculator.ts lines 182-261); the local expressions are
syntactically the same as in calculateTax and share the lifted
definitions. -/
def coreDetailed (standardDeduction seniorDeductionPerPerson : ℚ) (brackets : List TaxBracket)
    (thresholds : LtcgThresholds) (niitThreshold : ℚ) (i : TaxInputs) : DetailedTaxBreakdown :=
  let seniorDeduction := i.seniors65Plus * seniorDeductionPerPerson
  let totalDeductions := standardDeduction + seniorDeduction
  { income :=
      { totalStandardIncome := i.ordinaryIncome + i.ordinaryEarnings
        longTermCapitalGains := i.longTermCapitalGains
        capitalLosses := i.capitalLosses }
    deductions :=
      { standardDeduction := standardDeduction
        seniorDeduction := seniorDeduction
        seniorDeductionPerPerson := seniorDeductionPerPerson
        totalDeductions := totalDeductions }
    ordinaryTax :=
      { taxableOrdinaryIncome := ordinaryTaxable totalDeductions i
        brackets := ordinaryTaxBracketLines (ordinaryTaxable totalDeductions i) brackets }
    capitalGainsTax :=
      { taxableCapitalGains := ltcgTaxable totalDeductions i
        zeroBracket :=
          ⟨zeroPortion thresholds.zero totalDeductions i,
           zeroPortion thresholds.zero totalDeductions i * 0⟩
        fifteenBracket :=
          ⟨fifteenPortion thresholds.zero thresholds.fifteen totalDeductions i,
           fifteenPortion thresholds.zero thresholds.fifteen totalDeductions i * 0.15⟩
        twentyBracket :=
          ⟨twentyPortion thresholds.zero thresholds.fifteen totalDeductions i,
           twentyPortion thresholds.zero thresholds.fifteen totalDeductions i * 0.20⟩ }
    niit :=
      { magi := magiApprox i
        threshold := niitThreshold
        excess := niitExcess niitThreshold i
        netInvestmentIncome := netInvestmentIncome i
        niitAmount := niitTaxOf niitThreshold i } }

/-- Embeds calculateDetailedTaxBreakdown (src/taxCalculator.ts lines
178-262): the same five lookups, then the itemized computation. -/
def calculateDetailedTaxBreakdown (i : TaxInputs) : Option DetailedTaxBreakdown := do
  let taxData ← TAX_YEAR_DATA i.taxYear
  let standardDeduction ← taxData.standardDeductions.get i.filingStatus
  let seniorDeductionPerPerson ← taxData.seniorAdditionalDeduction.get i.filingStatus
  let brackets ← taxData.taxBrackets.get i.filingStatus
  let thresholds ← taxData.ltcgThresholds.get i.filingStatus
  let niitThreshold ← taxData.niitThresholds.get i.filingStatus
  pure (coreDetailed standardDeduction seniorDeductionPerPerson brackets thresholds niitThreshold i)

/-- Sum of the tax column of a list of detailed bracket lines. -/
def lineTaxSum (ls : List BracketLine) : ℚ := (ls.map BracketLine.tax).sum

/-- Modelled from the spec contract of the bracket tax primitive: sum, over
each bracket whose lower bound is strictly below the amount, of
rate times (min(amount, upperBound) - lowerBound), stopping at the first
bracket whose lower bound the amount does not exceed. -/
def specBracketTax (amount : ℚ) (brackets : List TaxBracket) : ℚ :=
  ((brackets.takeWhile (fun b => decide (b.min < amount))).map
    (fun b => b.rate * (minOrInf amount b.max - b.min))).sum

/-- Well-formedness of a bracket list from start s: each lower bound equals
the previous upper bound, bounds strictly increase, and only the last
bracket is unbounded.  The table lists satisfy chainedFrom 0. -/
def chainedFrom (s : ℚ) : List TaxBracket → Bool
  | [] => true
  | b :: rest =>
    decide (b.min = s) &&
      (match b.max with
       | none => rest.isEmpty
       | some m => decide (s < m) && chainedFrom m rest)

/-- All bracket rates are non-negative. -/
def ratesNonneg (bs : List TaxBracket) : Bool := bs.all (fun b => decide (0 ≤ b.rate))

/-- Bracket rates are non-decreasing in bracket order. -/
def ratesNondecreasing : List TaxBracket → Bool
  | [] => true
  | [_] => true
  | b :: b2 :: rest => decide (b.rate ≤ b2.rate) && ratesNondecreasing (b2 :: rest)

/-- Sum of the rates of a bracket list (Lipschitz constant of the bracket
tax function). -/
def ratesSum (bs : List TaxBracket) : ℚ := (bs.map TaxBracket.rate).sum

theorem calcBrackets_eq_zero (bs : List TaxBracket) (m t : ℚ)
    (hch : chainedFrom m bs = true) (htm : t ≤ m) :
    calculateTaxFromBrackets t bs = 0 := by
  cases bs with
  | nil => rfl
  | cons b rest =>
    have hmin : b.min = m := by
      cases hbmax : b.max <;>
        simp [chainedFrom, hbmax, Bool.and_eq_true, decide_eq_true_eq] at hch <;>
        exact hch.1
    simp [calculateTaxFromBrackets, hmin, htm]

theorem ordinaryLines_nil_of_nonpos (bs : List TaxBracket) (r : ℚ) (hr : r ≤ 0) :
    ordinaryTaxBracketLines r bs = [] := by
  cases bs <;> simp [ordinaryTaxBracketLines, hr]

theorem calculateTaxFromBrackets_eq_spec (amount : ℚ) (bs : List TaxBracket) :
    calculateTaxFromBrackets amount bs = specBracketTax amount bs := by
  induction bs with
  | nil => simp [calculateTaxFromBrackets, specBracketTax]
  | cons b rest ih =>
    by_cases h : amount ≤ b.min
    · simp [calculateTaxFromBrackets, specBracketTax, h, List.takeWhile_cons,
        not_lt.mpr h]
    · push_neg at h
      simp [calculateTaxFromBrackets, specBracketTax, not_le.mpr h, List.takeWhile_cons, h] at ih ⊢
      rw [ih]
      ring

theorem calculateTaxFromBrackets_stops (amount : ℚ) (bs1 : List TaxBracket)
    (b : TaxBracket) (bs2 : List TaxBracket) (h : amount ≤ b.min) :
    calculateTaxFromBrackets amount (bs1 ++ b :: bs2) = calculateTaxFromBrackets amount bs1 := by
  induction bs1 with
  | nil => simp [calculateTaxFromBrackets, h]
  | cons b0 rest ih =>
    by_cases h0 : amount ≤ b0.min <;> simp [calculateTaxFromBrackets, h0, ih]

theorem calculateTaxFromBrackets_zero (bs : List TaxBracket) (h : ∀ b ∈ bs, 0 ≤ b.min) :
    calculateTaxFromBrackets 0 bs = 0 := by
  cases bs with
  | nil => rfl
  | cons b rest => simp [calculateTaxFromBrackets, h b (List.mem_cons_self b rest)]

theorem ordinaryLines_cons (r : ℚ) (b : TaxBracket) (rest : List TaxBracket) (hr : ¬ r ≤ 0) :
    ordinaryTaxBracketLines r (b :: rest) =
      if 0 < minOrInf r (b.max.map (fun m => m - b.min)) then
        ⟨minOrInf r (b.max.map (fun m => m - b.min)), b.rate,
          minOrInf r (b.max.map (fun m => m - b.min)) * b.rate⟩
          :: ordinaryTaxBracketLines (r - minOrInf r (b.max.map (fun m => m - b.min))) rest
      else ordinaryTaxBracketLines r rest := by
  simp only [ordinaryTaxBracketLines, if_neg hr]

theorem calcBrackets_cons (t : ℚ) (b : TaxBracket) (rest : List TaxBracket) (ht : ¬ t ≤ b.min) :
    calculateTaxFromBrackets t (b :: rest) =
      (minOrInf t b.max - b.min) * b.rate + calculateTaxFromBrackets t rest := by
  simp only [calculateTaxFromBrackets, if_neg ht]

theorem ordinaryLines_sum_eq (bs : List TaxBracket) (s t : ℚ)
    (hch : chainedFrom s bs = true) (hst : s ≤ t) :
    lineTaxSum (ordinaryTaxBracketLines (t - s) bs) = calculateTaxFromBrackets t bs := by
  induction bs generalizing s with
  | nil => simp [ordinaryTaxBracketLines, calculateTaxFromBrackets, lineTaxSum]
  | cons b rest ih =>
    have hmin : b.min = s := by
      cases hbmax : b.max <;>
        simp [chainedFrom, hbmax, Bool.and_eq_true, decide_eq_true_eq] at hch <;>
        exact hch.1
    by_cases hts : t ≤ s
    · have hz : t - s ≤ 0 := by linarith
      simp [ordinaryTaxBracketLines, hz, calculateTaxFromBrackets, hmin, hts, lineTaxSum]
    · push_neg at hts
      have h1 : ¬ t - s ≤ 0 := by linarith
      rw [ordinaryLines_cons _ _ _ h1, calcBrackets_cons t b rest (by rw [hmin]; exact not_le.mpr hts)]
      cases hbmax : b.max with
      | none =>
        simp only [chainedFrom, hbmax, Bool.and_eq_true, decide_eq_true_eq,
          List.isEmpty_iff] at hch
        obtain ⟨hmin2, hrest⟩ := hch
        subst hrest
        simp only [Option.map_none']
        have hpos : 0 < minOrInf (t - s) none := by simp [minOrInf]; linarith
        rw [if_pos hpos]
        simp [minOrInf, lineTaxSum, ordinaryTaxBracketLines, calculateTaxFromBrackets, hmin]
      | some m =>
        simp only [chainedFrom, hbmax, Bool.and_eq_true, decide_eq_true_eq] at hch
        obtain ⟨hmin2, hsm, hch2⟩ := hch
        simp only [Option.map_some', hmin]
        by_cases htm : t ≤ m
        · have htax : minOrInf (t - s) (some (m - s)) = t - s := by
            simp only [minOrInf]
            exact min_eq_left (by linarith)
          have hpos : 0 < t - s := by linarith
          rw [htax, if_pos hpos]
          have hlines0 : ordinaryTaxBracketLines (t - s - (t - s)) rest = [] :=
            ordinaryLines_nil_of_nonpos rest _ (by linarith)
          have hcalc0 : calculateTaxFromBrackets t rest = 0 :=
            calcBrackets_eq_zero rest m t hch2 htm
          have hminT : minOrInf t (some m) = t := by
            simp only [minOrInf]
            exact min_eq_left htm
          rw [hlines0, hcalc0, hminT]
          simp [lineTaxSum]
        · push_neg at htm
          have htax : minOrInf (t - s) (some (m - s)) = m - s := by
            simp only [minOrInf]
            exact min_eq_right (by linarith)
          have hpos : 0 < m - s := by linarith
          rw [htax, if_pos hpos]
          have hrec : t - s - (m - s) = t - m := by ring
          have hminT : minOrInf t (some m) = m := by
            simp only [minOrInf]
            exact min_eq_right (le_of_lt htm)
          have hih := ih m hch2 (le_of_lt htm)
          rw [hrec, hminT]
          simp only [lineTaxSum, List.map_cons, List.sum_cons] at hih ⊢
          rw [hih]

theorem ratesNonneg_head (b : TaxBracket) (rest : List TaxBracket)
    (h : ratesNonneg (b :: rest) = true) : 0 ≤ b.rate ∧ ratesNonneg rest = true := by
  simp only [ratesNonneg, List.all_cons, Bool.and_eq_true, decide_eq_true_eq] at h ⊢
  exact h

theorem ratesSum_nonneg (bs : List TaxBracket) (hr : ratesNonneg bs = true) :
    0 ≤ ratesSum bs := by
  induction bs with
  | nil => simp [ratesSum]
  | cons b rest ih =>
    obtain ⟨h1, h2⟩ := ratesNonneg_head b rest hr
    have h3 := ih h2
    simp only [ratesSum, List.map_cons, List.sum_cons]
    simp only [ratesSum] at h3
    linarith

theorem chainedFrom_head (b : TaxBracket) (rest : List TaxBracket) (s : ℚ)
    (h : chainedFrom s (b :: rest) = true) : b.min = s := by
  cases hbmax : b.max <;>
    simp [chainedFrom, hbmax, Bool.and_eq_true, decide_eq_true_eq] at h <;>
    exact h.1

theorem calcBrackets_nonneg (bs : List TaxBracket) (s : ℚ) (hch : chainedFrom s bs = true)
    (hr : ratesNonneg bs = true) (t : ℚ) : 0 ≤ calculateTaxFromBrackets t bs := by
  induction bs generalizing s with
  | nil => simp [calculateTaxFromBrackets]
  | cons b rest ih =>
    obtain ⟨h1, hr2⟩ := ratesNonneg_head b rest hr
    have hmin := chainedFrom_head b rest s hch
    by_cases ht : t ≤ b.min
    · simp [calculateTaxFromBrackets, ht]
    · push_neg at ht
      rw [calcBrackets_cons t b rest (not_le.mpr ht)]
      cases hbmax : b.max with
      | none =>
        simp only [chainedFrom, hbmax, Bool.and_eq_true, decide_eq_true_eq,
          List.isEmpty_iff] at hch
        obtain ⟨_, hrest⟩ := hch
        subst hrest
        simp only [minOrInf, calculateTaxFromBrackets]
        nlinarith
      | some m =>
        simp only [chainedFrom, hbmax, Bool.and_eq_true, decide_eq_true_eq] at hch
        obtain ⟨_, hsm, hch2⟩ := hch
        have hrec := ih m hch2 hr2
        have hcontrib : 0 ≤ (minOrInf t (some m) - b.min) * b.rate := by
          have : b.min ≤ minOrInf t (some m) := by
            simp only [minOrInf]
            exact le_min (le_of_lt ht) (by rw [hmin]; exact le_of_lt hsm)
          nlinarith
        linarith

theorem calcBrackets_mono_chained (bs : List TaxBracket) (s : ℚ)
    (hch : chainedFrom s bs = true) (hr : ratesNonneg bs = true) :
    ∀ a b : ℚ, a ≤ b →
      calculateTaxFromBrackets a bs ≤ calculateTaxFromBrackets b bs := by
  induction bs generalizing s with
  | nil => intro a b _; simp [calculateTaxFromBrackets]
  | cons bk rest ih =>
    intro a b hab
    obtain ⟨h1, hr2⟩ := ratesNonneg_head bk rest hr
    have hmin := chainedFrom_head bk rest s hch
    by_cases hb : b ≤ bk.min
    · have ha : a ≤ bk.min := le_trans hab hb
      simp [calculateTaxFromBrackets, ha, hb]
    · push_neg at hb
      by_cases ha : a ≤ bk.min
      · rw [calcBrackets_cons b bk rest (not_le.mpr hb)]
        have hz : calculateTaxFromBrackets a (bk :: rest) = 0 := by
          simp [calculateTaxFromBrackets, ha]
        rw [hz]
        cases hbmax : bk.max with
        | none =>
          simp only [chainedFrom, hbmax, Bool.and_eq_true, decide_eq_true_eq,
            List.isEmpty_iff] at hch
          obtain ⟨_, hrest⟩ := hch
          subst hrest
          simp only [minOrInf, calculateTaxFromBrackets]
          nlinarith
        | some m =>
          simp only [chainedFrom, hbmax, Bool.and_eq_true, decide_eq_true_eq] at hch
          obtain ⟨_, hsm, hch2⟩ := hch
          have hrec := calcBrackets_nonneg rest m hch2 hr2 b
          have hcontrib : 0 ≤ (minOrInf b (some m) - bk.min) * bk.rate := by
            have : bk.min ≤ minOrInf b (some m) := by
              simp only [minOrInf]
              exact le_min (le_of_lt hb) (by rw [hmin]; exact le_of_lt hsm)
            nlinarith
          linarith
      · push_neg at ha
        rw [calcBrackets_cons a bk rest (not_le.mpr ha),
          calcBrackets_cons b bk rest (not_le.mpr hb)]
        have hmono : minOrInf a bk.max ≤ minOrInf b bk.max := by
          cases bk.max <;> simp only [minOrInf] <;> [exact hab; exact min_le_min hab (le_refl _)]
        have hcontrib : (minOrInf a bk.max - bk.min) * bk.rate
            ≤ (minOrInf b bk.max - bk.min) * bk.rate := by nlinarith
        cases hbmax : bk.max with
        | none =>
          simp only [chainedFrom, hbmax, Bool.and_eq_true, decide_eq_true_eq,
            List.isEmpty_iff] at hch
          obtain ⟨_, hrest⟩ := hch
          subst hrest
          rw [hbmax] at hcontrib
          simp only [calculateTaxFromBrackets]
          linarith
        | some m =>
          simp only [chainedFrom, hbmax, Bool.and_eq_true, decide_eq_true_eq] at hch
          obtain ⟨_, hsm, hch2⟩ := hch
          rw [hbmax] at hcontrib
          have hrec := ih m hch2 hr2 a b hab
          linarith

theorem minOrInf_sub_le (a b : ℚ) (o : Option ℚ) (hab : a ≤ b) :
    minOrInf b o - minOrInf a o ≤ b - a := by
  cases o with
  | none => simp [minOrInf]
  | some m =>
    simp only [minOrInf]
    rcases le_total b m with h | h
    · rw [min_eq_left h, min_eq_left (le_trans hab h)]
    · rw [min_eq_right h]
      rcases le_total a m with h2 | h2
      · rw [min_eq_left h2]; linarith
      · rw [min_eq_right h2]; linarith

theorem calcBrackets_lipschitz (bs : List TaxBracket) (s : ℚ)
    (hch : chainedFrom s bs = true) (hr : ratesNonneg bs = true) :
    ∀ a b : ℚ, a ≤ b →
      calculateTaxFromBrackets b bs - calculateTaxFromBrackets a bs
        ≤ (b - a) * ratesSum bs := by
  induction bs generalizing s with
  | nil => intro a b hab; simp [calculateTaxFromBrackets, ratesSum]
  | cons bk rest ih =>
    intro a b hab
    obtain ⟨h1, hr2⟩ := ratesNonneg_head bk rest hr
    have hmin := chainedFrom_head bk rest s hch
    have hS : 0 ≤ ratesSum rest := ratesSum_nonneg rest hr2
    have hsum : ratesSum (bk :: rest) = bk.rate + ratesSum rest := by
      simp [ratesSum]
    rw [hsum]
    by_cases hb : b ≤ bk.min
    · have ha : a ≤ bk.min := le_trans hab hb
      simp only [calculateTaxFromBrackets, if_pos ha, if_pos hb]
      nlinarith
    · push_neg at hb
      by_cases ha : a ≤ bk.min
      · have hz : calculateTaxFromBrackets a (bk :: rest) = 0 := by
          simp [calculateTaxFromBrackets, ha]
        rw [hz, calcBrackets_cons b bk rest (not_le.mpr hb)]
        cases hbmax : bk.max with
        | none =>
          simp only [chainedFrom, hbmax, Bool.and_eq_true, decide_eq_true_eq,
            List.isEmpty_iff] at hch
          obtain ⟨_, hrest⟩ := hch
          subst hrest
          simp only [minOrInf, calculateTaxFromBrackets, ratesSum, List.map_nil,
            List.sum_nil]
          nlinarith
        | some m =>
          simp only [chainedFrom, hbmax, Bool.and_eq_true, decide_eq_true_eq] at hch
          obtain ⟨_, hsm, hch2⟩ := hch
          have hz2 : calculateTaxFromBrackets a rest = 0 :=
            calcBrackets_eq_zero rest m a hch2 (by rw [hmin] at ha; linarith)
          have hrec := ih m hch2 hr2 a b hab
          rw [hz2] at hrec
          have hcontrib : (minOrInf b (some m) - bk.min) * bk.rate ≤ (b - a) * bk.rate := by
            have : minOrInf b (some m) - bk.min ≤ b - a := by
              simp only [minOrInf]
              have := min_le_left b m
              linarith
            nlinarith
          linarith
      · push_neg at ha
        rw [calcBrackets_cons a bk rest (not_le.mpr ha),
          calcBrackets_cons b bk rest (not_le.mpr hb)]
        have hdiff : minOrInf b bk.max - minOrInf a bk.max ≤ b - a :=
          minOrInf_sub_le a b bk.max hab
        have hcontrib : (minOrInf b bk.max - bk.min) * bk.rate
            - (minOrInf a bk.max - bk.min) * bk.rate ≤ (b - a) * bk.rate := by
          nlinarith
        cases hbmax : bk.max with
        | none =>
          simp only [chainedFrom, hbmax, Bool.and_eq_true, decide_eq_true_eq,
            List.isEmpty_iff] at hch
          obtain ⟨_, hrest⟩ := hch
          subst hrest
          rw [hbmax] at hcontrib
          simp only [calculateTaxFromBrackets, ratesSum, List.map_nil, List.sum_nil]
          nlinarith
        | some m =>
          simp only [chainedFrom, hbmax, Bool.and_eq_true, decide_eq_true_eq] at hch
          obtain ⟨_, hsm, hch2⟩ := hch
          rw [hbmax] at hcontrib
          have hrec := ih m hch2 hr2 a b hab
          linarith

theorem calculateTax_inv (i : TaxInputs) (r : TaxResults) (h : calculateTax i = some r) :
    ∃ dta sd pp bs thr nt,
      TAX_YEAR_DATA i.taxYear = some dta ∧
      dta.standardDeductions.get i.filingStatus = some sd ∧
      dta.seniorAdditionalDeduction.get i.filingStatus = some pp ∧
      dta.taxBrackets.get i.filingStatus = some bs ∧
      dta.ltcgThresholds.get i.filingStatus = some thr ∧
      dta.niitThresholds.get i.filingStatus = some nt ∧
      r = coreResults sd pp bs thr nt i := by
  simp only [calculateTax, bind, Option.bind_eq_some, Option.some.injEq, pure] at h
  obtain ⟨dta, h0, sd, h1, pp, h2, bs, h3, thr, h4, nt, h5, h6⟩ := h
  exact ⟨dta, sd, pp, bs, thr, nt, h0, h1, h2, h3, h4, h5, h6.symm⟩

theorem calculateDetailed_inv (i : TaxInputs) (d : DetailedTaxBreakdown)
    (h : calculateDetailedTaxBreakdown i = some d) :
    ∃ dta sd pp bs thr nt,
      TAX_YEAR_DATA i.taxYear = some dta ∧
      dta.standardDeductions.get i.filingStatus = some sd ∧
      dta.seniorAdditionalDeduction.get i.filingStatus = some pp ∧
      dta.taxBrackets.get i.filingStatus = some bs ∧
      dta.ltcgThresholds.get i.filingStatus = some thr ∧
      dta.niitThresholds.get i.filingStatus = some nt ∧
      d = coreDetailed sd pp bs thr nt i := by
  simp only [calculateDetailedTaxBreakdown, bind, Option.bind_eq_some, Option.some.injEq,
    pure] at h
  obtain ⟨dta, h0, sd, h1, pp, h2, bs, h3, thr, h4, nt, h5, h6⟩ := h
  exact ⟨dta, sd, pp, bs, thr, nt, h0, h1, h2, h3, h4, h5, h6.symm⟩

theorem tableBrackets_chained (y : Nat) (s : String) (dta : TaxYearData) (bs : List TaxBracket)
    (hy : TAX_YEAR_DATA y = some dta) (hbs : dta.taxBrackets.get s = some bs) :
    chainedFrom 0 bs = true := by
  have hd : dta = data2024 ∨ dta = data2025 := by
    unfold TAX_YEAR_DATA at hy
    split_ifs at hy
    · exact Or.inl (Option.some.inj hy).symm
    · exact Or.inr (Option.some.inj hy).symm
  rcases hd with rfl | rfl <;>
  · unfold StatusMap.get at hbs
    split_ifs at hbs <;>
      (obtain rfl := Option.some.inj hbs; decide)

theorem coreDetailed_agreement (sd pp : ℚ) (bs : List TaxBracket) (thr : LtcgThresholds)
    (nt : ℚ) (i : TaxInputs) (hch : chainedFrom 0 bs = true) :
    lineTaxSum ((coreDetailed sd pp bs thr nt i).ordinaryTax.brackets)
      = (coreResults sd pp bs thr nt i).ordinaryTax ∧
    (coreDetailed sd pp bs thr nt i).capitalGainsTax.zeroBracket.tax
        + (coreDetailed sd pp bs thr nt i).capitalGainsTax.fifteenBracket.tax
        + (coreDetailed sd pp bs thr nt i).capitalGainsTax.twentyBracket.tax
      = (coreResults sd pp bs thr nt i).capitalGainsTax ∧
    (coreDetailed sd pp bs thr nt i).niit.niitAmount
      = (coreResults sd pp bs thr nt i).niitTax := by
  refine ⟨?_, rfl, rfl⟩
  have h0 : (0 : ℚ) ≤ ordinaryTaxable (sd + i.seniors65Plus * pp) i :=
    le_max_left 0 _
  have h := ordinaryLines_sum_eq bs 0 (ordinaryTaxable (sd + i.seniors65Plus * pp) i) hch h0
  rw [sub_zero] at h
  exact h

/-- C1: calculateTaxFromBrackets equals the spec sum (rate times
(min(amount, upperBound) - lowerBound)) taken while the lower bound is
strictly below the amount; a zero amount yields zero tax on any bracket
list with non-negative lower bounds; and brackets from the first one whose
lower bound the amount does not exceed contribute nothing, so an amount on
a bracket boundary is taxed entirely within the lower bracket. -/
theorem claim_C1_bracket_primitive :
    (∀ (amount : ℚ) (bs : List TaxBracket), 0 ≤ amount →
        calculateTaxFromBrackets amount bs = specBracketTax amount bs) ∧
    (∀ bs : List TaxBracket, (∀ b ∈ bs, 0 ≤ b.min) → calculateTaxFromBrackets 0 bs = 0) ∧
    (∀ (amount : ℚ) (bs1 : List TaxBracket) (b : TaxBracket) (bs2 : List TaxBracket),
        amount ≤ b.min →
        calculateTaxFromBrackets amount (bs1 ++ b :: bs2)
          = calculateTaxFromBrackets amount bs1) :=
  ⟨fun amount bs _ => calculateTaxFromBrackets_eq_spec amount bs,
   calculateTaxFromBrackets_zero,
   calculateTaxFromBrackets_stops⟩

/-- Witness for C1 at concrete inputs: the 2024 single schedule at 30000,
amount 0, and the boundary amount 11600 of the first 2024 bracket. -/
theorem claim_C1_bracket_primitive_witness :
    calculateTaxFromBrackets 30000 data2024.taxBrackets.single
        = specBracketTax 30000 data2024.taxBrackets.single ∧
    calculateTaxFromBrackets 0 data2024.taxBrackets.single = 0 ∧
    calculateTaxFromBrackets 11600
        ([⟨0, some 11600, 0.10⟩] ++ ⟨11600, some 47150, 0.12⟩ :: [⟨47150, none, 0.22⟩])
      = calculateTaxFromBrackets 11600 [⟨0, some 11600, 0.10⟩] :=
  ⟨claim_C1_bracket_primitive.1 30000 _ (by norm_num),
   claim_C1_bracket_primitive.2.1 _ (by decide),
   claim_C1_bracket_primitive.2.2 11600 _ _ _ (by decide)⟩

/-- C2: the deduction-allocation equations of calculateTax lines 138-140,
and the consequence that with deductions no larger than ordinary gross
income the taxable long-term gains equal the net capital gains exactly. -/
theorem claim_C2_deduction_allocation (i : TaxInputs) (td : ℚ) :
    netCapitalGains i = max 0 (i.longTermCapitalGains - i.capitalLosses) ∧
    ordinaryTaxable td i = max 0 (ordinaryGross i - td) ∧
    deductionLeftoverForLTCG td i = max 0 (td - ordinaryGross i) ∧
    ltcgTaxable td i = max 0 (netCapitalGains i - deductionLeftoverForLTCG td i) ∧
    (td ≤ ordinaryGross i → ltcgTaxable td i = netCapitalGains i) := by
  refine ⟨rfl, rfl, rfl, rfl, fun h => ?_⟩
  have h1 : deductionLeftoverForLTCG td i = 0 := by
    unfold deductionLeftoverForLTCG
    exact max_eq_left (by linarith)
  unfold ltcgTaxable
  rw [h1, sub_zero]
  exact max_eq_right (le_max_left 0 _)

/-- Witness for C2 at the 2024 married-filing-jointly reference scenario. -/
theorem claim_C2_deduction_allocation_witness :
    (29200 : ℚ) ≤ ordinaryGross
      ⟨2024, "marriedFilingJointly", 100000, 0, 50000, 0, 0⟩ ∧
    ltcgTaxable 29200 ⟨2024, "marriedFilingJointly", 100000, 0, 50000, 0, 0⟩
      = netCapitalGains ⟨2024, "marriedFilingJointly", 100000, 0, 50000, 0, 0⟩ :=
  ⟨by norm_num [ordinaryGross],
   (claim_C2_deduction_allocation ⟨2024, "marriedFilingJointly", 100000, 0, 50000, 0, 0⟩
      29200).2.2.2.2 (by norm_num [ordinaryGross])⟩

/-- C3: the LTCG stacking equations of calculateTax lines 146-153: the
zero and fifteen portions are the stated minima, the twenty portion is the
remainder after both, and the capital-gains tax is 0.15 times the fifteen
portion plus 0.20 times the twenty portion (the zero portion contributes
nothing). -/
theorem claim_C3_ltcg_stacking (i : TaxInputs) (zeroThreshold fifteenThreshold td : ℚ) :
    zeroPortion zeroThreshold td i
        = min (ltcgTaxable td i) (max 0 (zeroThreshold - ordinaryTaxable td i)) ∧
    fifteenPortion zeroThreshold fifteenThreshold td i
        = min (ltcgTaxable td i - zeroPortion zeroThreshold td i)
            (max 0 (fifteenThreshold - ordinaryTaxable td i - zeroPortion zeroThreshold td i)) ∧
    twentyPortion zeroThreshold fifteenThreshold td i
        = ltcgTaxable td i - zeroPortion zeroThreshold td i
            - fifteenPortion zeroThreshold fifteenThreshold td i ∧
    capitalGainsTaxOf zeroThreshold fifteenThreshold td i
        = fifteenPortion zeroThreshold fifteenThreshold td i * 0.15
            + twentyPortion zeroThreshold fifteenThreshold td i * 0.20 := by
  refine ⟨rfl, rfl, ?_, ?_⟩
  · have h15 : fifteenPortion zeroThreshold fifteenThreshold td i
        ≤ ltcgTaxable td i - zeroPortion zeroThreshold td i := min_le_left _ _
    unfold twentyPortion
    exact max_eq_right (by linarith)
  · unfold capitalGainsTaxOf
    ring

/-- C4: the NIIT equations of calculateTax lines 156-160, and the bound
that the NIIT never exceeds 3.8 percent of net investment income. -/
theorem claim_C4_niit (i : TaxInputs) (threshold : ℚ) :
    niitTaxOf threshold i
        = 0.038 * min (netInvestmentIncome i) (niitExcess threshold i) ∧
    netInvestmentIncome i = max 0 i.ordinaryEarnings + netCapitalGains i ∧
    niitExcess threshold i = max 0 (magiApprox i - threshold) ∧
    magiApprox i = ordinaryGross i + netCapitalGains i ∧
    niitTaxOf threshold i ≤ 0.038 * netInvestmentIncome i := by
  refine ⟨rfl, rfl, rfl, rfl, ?_⟩
  unfold niitTaxOf
  exact mul_le_mul_of_nonneg_left
    (min_le_left (netInvestmentIncome i) (niitExcess threshold i)) (by norm_num)

/-- C7: the three stacking portions always sum exactly to the taxable
long-term gains. -/
theorem claim_C7_stacking_conservation (i : TaxInputs)
    (zeroThreshold fifteenThreshold td : ℚ) :
    zeroPortion zeroThreshold td i + fifteenPortion zeroThreshold fifteenThreshold td i
      + twentyPortion zeroThreshold fifteenThreshold td i = ltcgTaxable td i := by
  have hf : fifteenPortion zeroThreshold fifteenThreshold td i
      ≤ ltcgTaxable td i - zeroPortion zeroThreshold td i := min_le_left _ _
  have h20 : twentyPortion zeroThreshold fifteenThreshold td i
      = ltcgTaxable td i - zeroPortion zeroThreshold td i
        - fifteenPortion zeroThreshold fifteenThreshold td i := by
    unfold twentyPortion
    exact max_eq_right (by linarith)
  rw [h20]
  ring

/-- C6: over a well-formed bracket list (contiguous cover of the
non-negative axis with non-negative, non-decreasing rates) the bracket tax
function is monotone, and it is continuous in the income argument: it
satisfies an epsilon-delta bound obtained from its Lipschitz constant, the
sum of the rates. -/
theorem claim_C6_monotone_continuous (bs : List TaxBracket)
    (hch : chainedFrom 0 bs = true) (hr : ratesNonneg bs = true)
    (_hmono : ratesNondecreasing bs = true) :
    (∀ a b : ℚ, 0 ≤ a → a < b →
        calculateTaxFromBrackets a bs ≤ calculateTaxFromBrackets b bs) ∧
    (∀ ε : ℚ, 0 < ε → ∃ δ : ℚ, 0 < δ ∧ ∀ a b : ℚ, 0 ≤ a → 0 ≤ b → |a - b| < δ →
        |calculateTaxFromBrackets a bs - calculateTaxFromBrackets b bs| < ε) := by
  have hS : 0 ≤ ratesSum bs := ratesSum_nonneg bs hr
  constructor
  · intro a b _ hab
    exact calcBrackets_mono_chained bs 0 hch hr a b (le_of_lt hab)
  · intro ε hε
    refine ⟨ε / (ratesSum bs + 1), by positivity, ?_⟩
    intro a b _ _ hab
    have key : ∀ x y : ℚ, x ≤ y → |x - y| < ε / (ratesSum bs + 1) →
        |calculateTaxFromBrackets x bs - calculateTaxFromBrackets y bs| < ε := by
      intro x y hxy hxyd
      have hm := calcBrackets_mono_chained bs 0 hch hr x y hxy
      have hl := calcBrackets_lipschitz bs 0 hch hr x y hxy
      have h1 : |calculateTaxFromBrackets x bs - calculateTaxFromBrackets y bs|
          = calculateTaxFromBrackets y bs - calculateTaxFromBrackets x bs := by
        rw [abs_sub_comm]
        exact abs_of_nonneg (by linarith)
      have h2 : y - x < ε / (ratesSum bs + 1) := by
        rw [abs_sub_comm] at hxyd
        rwa [abs_of_nonneg (by linarith)] at hxyd
      rw [h1]
      calc calculateTaxFromBrackets y bs - calculateTaxFromBrackets x bs
          ≤ (y - x) * ratesSum bs := hl
        _ ≤ (y - x) * (ratesSum bs + 1) := by nlinarith
        _ < (ε / (ratesSum bs + 1)) * (ratesSum bs + 1) := by
            exact mul_lt_mul_of_pos_right h2 (by linarith)
        _ = ε := div_mul_cancel₀ ε (by linarith)
    rcases le_total a b with h | h
    · exact key a b h hab
    · rw [abs_sub_comm]
      rw [abs_sub_comm] at hab
      exact key b a h hab

/-- Witness for C6 on the 2024 single bracket schedule, with incomes 100
and 200 and epsilon 1. -/
theorem claim_C6_monotone_continuous_witness :
    calculateTaxFromBrackets 100 data2024.taxBrackets.single
      ≤ calculateTaxFromBrackets 200 data2024.taxBrackets.single ∧
    (∃ δ : ℚ, 0 < δ ∧ ∀ a b : ℚ, 0 ≤ a → 0 ≤ b → |a - b| < δ →
        |calculateTaxFromBrackets a data2024.taxBrackets.single
          - calculateTaxFromBrackets b data2024.taxBrackets.single| < 1) :=
  ⟨(claim_C6_monotone_continuous data2024.taxBrackets.single (by decide)
      (by norm_num [ratesNonneg, data2024, List.all_cons])
      (by norm_num [ratesNondecreasing, data2024])).1 100 200 (by norm_num) (by norm_num),
   (claim_C6_monotone_continuous data2024.taxBrackets.single (by decide)
      (by norm_num [ratesNonneg, data2024, List.all_cons])
      (by norm_num [ratesNondecreasing, data2024])).2 1 (by norm_num)⟩

/-- C5: whenever calculateTax and calculateDetailedTaxBreakdown both
return on the same inputs, the detailed per-bracket tax line items sum to
the summary ordinaryTax, the three capital-gains tier taxes sum to the
summary capitalGainsTax, the detailed niitAmount equals the summary
niitTax, and those three detailed totals sum to the summary totalTax. -/
theorem claim_C5_summary_detail_agree (i : TaxInputs) (r : TaxResults)
    (d : DetailedTaxBreakdown) (hr : calculateTax i = some r)
    (hd : calculateDetailedTaxBreakdown i = some d) :
    lineTaxSum d.ordinaryTax.brackets = r.ordinaryTax ∧
    d.capitalGainsTax.zeroBracket.tax + d.capitalGainsTax.fifteenBracket.tax
      + d.capitalGainsTax.twentyBracket.tax = r.capitalGainsTax ∧
    d.niit.niitAmount = r.niitTax ∧
    lineTaxSum d.ordinaryTax.brackets
      + (d.capitalGainsTax.zeroBracket.tax + d.capitalGainsTax.fifteenBracket.tax
          + d.capitalGainsTax.twentyBracket.tax)
      + d.niit.niitAmount = r.totalTax := by
  obtain ⟨dta, sd, pp, bs, thr, nt, h0, h1, h2, h3, h4, h5, h6⟩ := calculateTax_inv i r hr
  obtain ⟨dta2, sd2, pp2, bs2, thr2, nt2, g0, g1, g2, g3, g4, g5, g6⟩ :=
    calculateDetailed_inv i d hd
  obtain rfl : dta = dta2 := Option.some.inj (h0.symm.trans g0)
  obtain rfl : sd = sd2 := Option.some.inj (h1.symm.trans g1)
  obtain rfl : pp = pp2 := Option.some.inj (h2.symm.trans g2)
  obtain rfl : bs = bs2 := Option.some.inj (h3.symm.trans g3)
  obtain rfl : thr = thr2 := Option.some.inj (h4.symm.trans g4)
  obtain rfl : nt = nt2 := Option.some.inj (h5.symm.trans g5)
  subst h6 g6
  have hch := tableBrackets_chained i.taxYear i.filingStatus dta bs h0 h3
  obtain ⟨e1, e2, e3⟩ := coreDetailed_agreement sd pp bs thr nt i hch
  refine ⟨e1, e2, e3, ?_⟩
  rw [e1, e2, e3]
  rfl

/-- Concrete all-zero-income scenario used by witnesses. -/
def zeroInputs : TaxInputs := ⟨2024, "single", 0, 0, 0, 0, 0⟩

/-- Summary result of calculateTax on zeroInputs. -/
def zeroResults : TaxResults := ⟨14600, 0, 14600, 0, 0, 0, 0, 0, 0⟩

/-- Detailed result of calculateDetailedTaxBreakdown on zeroInputs. -/
def zeroDetailed : DetailedTaxBreakdown :=
  ⟨⟨0, 0, 0⟩, ⟨14600, 0, 1950, 14600⟩, ⟨0, []⟩, ⟨0, ⟨0, 0⟩, ⟨0, 0⟩, ⟨0, 0⟩⟩,
   ⟨0, 200000, 0, 0, 0⟩⟩

/-- Witness for C5 at the zero-income scenario. -/
theorem claim_C5_summary_detail_agree_witness :
    lineTaxSum zeroDetailed.ordinaryTax.brackets = zeroResults.ordinaryTax ∧
    zeroDetailed.capitalGainsTax.zeroBracket.tax
      + zeroDetailed.capitalGainsTax.fifteenBracket.tax
      + zeroDetailed.capitalGainsTax.twentyBracket.tax = zeroResults.capitalGainsTax ∧
    zeroDetailed.niit.niitAmount = zeroResults.niitTax ∧
    lineTaxSum zeroDetailed.ordinaryTax.brackets
      + (zeroDetailed.capitalGainsTax.zeroBracket.tax
          + zeroDetailed.capitalGainsTax.fifteenBracket.tax
          + zeroDetailed.capitalGainsTax.twentyBracket.tax)
      + zeroDetailed.niit.niitAmount = zeroResults.totalTax :=
  claim_C5_summary_detail_agree zeroInputs zeroResults zeroDetailed
    (by
      have hred : calculateTax zeroInputs = some (coreResults 14600 1950
          data2024.taxBrackets.single ⟨47025, 518900⟩ 200000 zeroInputs) := by
        simp only [calculateTax, TAX_YEAR_DATA, StatusMap.get, zeroInputs, String.reduceEq,
          reduceIte, Option.bind_some, Option.some_bind]
        rfl
      rw [hred, zeroResults]
      norm_num [coreResults, zeroInputs, ordinaryTaxable, ordinaryGross, netCapitalGains,
        totalIncome, ltcgTaxable, deductionLeftoverForLTCG, zeroPortion, fifteenPortion,
        twentyPortion, capitalGainsTaxOf, niitTaxOf, netInvestmentIncome, niitExcess,
        magiApprox, calculateTaxFromBrackets, data2024, TaxResults.mk.injEq])
    (by
      have hred : calculateDetailedTaxBreakdown zeroInputs = some (coreDetailed 14600 1950
          data2024.taxBrackets.single ⟨47025, 518900⟩ 200000 zeroInputs) := by
        simp only [calculateDetailedTaxBreakdown, TAX_YEAR_DATA, StatusMap.get, zeroInputs,
          String.reduceEq, reduceIte, Option.bind_some, Option.some_bind]
        rfl
      rw [hred, zeroDetailed]
      norm_num [coreDetailed, zeroInputs, ordinaryTaxable, ordinaryGross, netCapitalGains,
        ltcgTaxable, deductionLeftoverForLTCG, zeroPortion, fifteenPortion,
        twentyPortion, niitTaxOf, netInvestmentIncome, niitExcess,
        magiApprox, ordinaryTaxBracketLines, minOrInf, data2024,
        DetailedTaxBreakdown.mk.injEq, IncomeDetail.mk.injEq, DeductionsDetail.mk.injEq,
        OrdinaryTaxDetail.mk.injEq, CapitalGainsDetail.mk.injEq, TierLine.mk.injEq,
        NiitDetail.mk.injEq])

/-- The reference scenario of C8: 2024, married filing jointly, 100000
ordinary income, 50000 long-term gains, no losses, no seniors. -/
def c8Inputs : TaxInputs :=
  ⟨2024, "marriedFilingJointly", 100000, 0, 50000, 0, 0⟩

/-- C8: on the reference scenario calculateTax yields totalDeductions
29200 and capitalGainsTax 4012.50, via ordinaryTaxable 70800,
ltcgTaxable 50000, zeroPortion 23250, fifteenPortion 26750 and
twentyPortion 0 at the 2024 married-filing-jointly thresholds. -/
theorem claim_C8_reference_scenario :
    (calculateTax c8Inputs).map TaxResults.totalDeductions = some 29200 ∧
    ordinaryTaxable 29200 c8Inputs = 70800 ∧
    ltcgTaxable 29200 c8Inputs = 50000 ∧
    zeroPortion 94050 29200 c8Inputs = 23250 ∧
    fifteenPortion 94050 583750 29200 c8Inputs = 26750 ∧
    twentyPortion 94050 583750 29200 c8Inputs = 0 ∧
    (calculateTax c8Inputs).map TaxResults.capitalGainsTax = some 4012.5 := by
  have hred : calculateTax c8Inputs = some (coreResults 29200 1550
      data2024.taxBrackets.marriedFilingJointly ⟨94050, 583750⟩ 250000 c8Inputs) := by
    simp only [calculateTax, TAX_YEAR_DATA, StatusMap.get, c8Inputs, String.reduceEq,
      reduceIte, Option.bind_some, Option.some_bind]
    rfl
  refine ⟨?_, ?_, ?_, ?_, ?_, ?_, ?_⟩
  · rw [hred]
    simp only [Option.map_some']
    norm_num [coreResults, c8Inputs]
  · norm_num [ordinaryTaxable, ordinaryGross, c8Inputs]
  · norm_num [ltcgTaxable, deductionLeftoverForLTCG, netCapitalGains, ordinaryGross, c8Inputs]
  · norm_num [zeroPortion, ltcgTaxable, deductionLeftoverForLTCG, netCapitalGains,
      ordinaryTaxable, ordinaryGross, c8Inputs]
  · norm_num [fifteenPortion, zeroPortion, ltcgTaxable, deductionLeftoverForLTCG,
      netCapitalGains, ordinaryTaxable, ordinaryGross, c8Inputs]
  · norm_num [twentyPortion, fifteenPortion, zeroPortion, ltcgTaxable,
      deductionLeftoverForLTCG, netCapitalGains, ordinaryTaxable, ordinaryGross, c8Inputs]
  · rw [hred]
    simp only [Option.map_some']
    norm_num [coreResults, capitalGainsTaxOf, twentyPortion, fifteenPortion, zeroPortion,
      ltcgTaxable, deductionLeftoverForLTCG, netCapitalGains, ordinaryTaxable,
      ordinaryGross, c8Inputs]

/-- C9: with a tax year that is not a key of TAX_YEAR_DATA, or a filing
status that is not a key of the per-status maps, both engine entry points
signal the error (modelled none, the thrown TypeError) instead of
defaulting to some table entry and returning a result. -/
theorem claim_C9_unknown_key_fails (i : TaxInputs)
    (h : (i.taxYear ≠ 2024 ∧ i.taxYear ≠ 2025) ∨
         (i.filingStatus ≠ "single" ∧ i.filingStatus ≠ "marriedFilingJointly" ∧
          i.filingStatus ≠ "marriedFilingSeparately")) :
    calculateTax i = none ∧ calculateDetailedTaxBreakdown i = none := by
  rcases h with ⟨h1, h2⟩ | ⟨h1, h2, h3⟩
  · have hY : TAX_YEAR_DATA i.taxYear = none := by
      unfold TAX_YEAR_DATA
      rw [if_neg h1, if_neg h2]
    constructor <;> simp [calculateTax, calculateDetailedTaxBreakdown, hY]
  · have hG : ∀ {α : Type} (m : StatusMap α), m.get i.filingStatus = none := by
      intro α m
      unfold StatusMap.get
      rw [if_neg h1, if_neg h2, if_neg h3]
    cases hY : TAX_YEAR_DATA i.taxYear with
    | none => constructor <;> simp [calculateTax, calculateDetailedTaxBreakdown, hY]
    | some dta =>
      constructor <;> simp [calculateTax, calculateDetailedTaxBreakdown, hY, hG]

/-- Witness for C9: tax year 2023 and a misspelled filing status each
produce the error outcome. -/
theorem claim_C9_unknown_key_fails_witness :
    (calculateTax ⟨2023, "single", 1, 0, 0, 0, 0⟩ = none ∧
     calculateDetailedTaxBreakdown ⟨2023, "single", 1, 0, 0, 0, 0⟩ = none) ∧
    (calculateTax ⟨2024, "married", 1, 0, 0, 0, 0⟩ = none ∧
     calculateDetailedTaxBreakdown ⟨2024, "married", 1, 0, 0, 0, 0⟩ = none) :=
  ⟨claim_C9_unknown_key_fails ⟨2023, "single", 1, 0, 0, 0, 0⟩
      (Or.inl ⟨by decide, by decide⟩),
   claim_C9_unknown_key_fails ⟨2024, "married", 1, 0, 0, 0, 0⟩
      (Or.inr ⟨by decide, by decide, by decide⟩)⟩

theorem coreResults_tax_fields_congr (sd pp : ℚ) (bs : List TaxBracket)
    (thr : LtcgThresholds) (nt : ℚ) (i j : TaxInputs)
    (hOI : i.ordinaryIncome = j.ordinaryIncome)
    (hOE : i.ordinaryEarnings = j.ordinaryEarnings)
    (hS : i.seniors65Plus = j.seniors65Plus)
    (hncg : netCapitalGains i = netCapitalGains j) :
    (coreResults sd pp bs thr nt i).ordinaryTax = (coreResults sd pp bs thr nt j).ordinaryTax ∧
    (coreResults sd pp bs thr nt i).capitalGainsTax
      = (coreResults sd pp bs thr nt j).capitalGainsTax ∧
    (coreResults sd pp bs thr nt i).niitTax = (coreResults sd pp bs thr nt j).niitTax ∧
    (coreResults sd pp bs thr nt i).totalTax = (coreResults sd pp bs thr nt j).totalTax := by
  simp only [coreResults, capitalGainsTaxOf, niitTaxOf, twentyPortion, fifteenPortion,
    zeroPortion, ltcgTaxable, deductionLeftoverForLTCG, ordinaryTaxable,
    netInvestmentIncome, niitExcess, magiApprox, ordinaryGross]
  rw [hOI, hOE, hS, hncg]
  exact ⟨rfl, rfl, rfl, rfl⟩

/-- C10: capital losses beyond the long-term gains change no tax
component: with losses at least the gains, calculateTax returns the same
ordinaryTax, capitalGainsTax, niitTax and totalTax as with losses capped
at exactly the gains, because netCapitalGains is clamped at zero before
any tax is computed. -/
theorem claim_C10_excess_losses (i : TaxInputs)
    (h : i.longTermCapitalGains ≤ i.capitalLosses)
    (r r2 : TaxResults)
    (hr : calculateTax i = some r)
    (hr2 : calculateTax { i with capitalLosses := i.longTermCapitalGains } = some r2) :
    r.ordinaryTax = r2.ordinaryTax ∧ r.capitalGainsTax = r2.capitalGainsTax ∧
    r.niitTax = r2.niitTax ∧ r.totalTax = r2.totalTax := by
  obtain ⟨dta, sd, pp, bs, thr, nt, h0, h1, h2, h3, h4, h5, h6⟩ := calculateTax_inv i r hr
  obtain ⟨dta2, sd2, pp2, bs2, thr2, nt2, g0, g1, g2, g3, g4, g5, g6⟩ :=
    calculateTax_inv { i with capitalLosses := i.longTermCapitalGains } r2 hr2
  obtain rfl : dta = dta2 := Option.some.inj (h0.symm.trans g0)
  obtain rfl : sd = sd2 := Option.some.inj (h1.symm.trans g1)
  obtain rfl : pp = pp2 := Option.some.inj (h2.symm.trans g2)
  obtain rfl : bs = bs2 := Option.some.inj (h3.symm.trans g3)
  obtain rfl : thr = thr2 := Option.some.inj (h4.symm.trans g4)
  obtain rfl : nt = nt2 := Option.some.inj (h5.symm.trans g5)
  subst h6 g6
  have hncg : netCapitalGains i
      = netCapitalGains { i with capitalLosses := i.longTermCapitalGains } := by
    show max 0 (i.longTermCapitalGains - i.capitalLosses)
      = max 0 (i.longTermCapitalGains - i.longTermCapitalGains)
    rw [max_eq_left (by linarith), max_eq_left (by linarith)]
  exact coreResults_tax_fields_congr sd pp bs thr nt i _ rfl rfl rfl hncg

/-- Scenario with capital losses exceeding the long-term gains. -/
def lossInputs : TaxInputs := ⟨2024, "single", 0, 0, 1000, 5000, 0⟩

/-- Summary result of calculateTax on lossInputs. -/
def lossResults : TaxResults := ⟨14600, 0, 14600, 0, 0, 0, 0, 0, 0⟩

/-- Summary result of calculateTax on lossInputs with the losses capped at
the gains. -/
def lossResultsCapped : TaxResults := ⟨14600, 0, 14600, 0, 0, 0, 0, 0, 0⟩

/-- Witness for C10 at lossInputs (losses 5000 against gains 1000). -/
theorem claim_C10_excess_losses_witness :
    lossResults.ordinaryTax = lossResultsCapped.ordinaryTax ∧
    lossResults.capitalGainsTax = lossResultsCapped.capitalGainsTax ∧
    lossResults.niitTax = lossResultsCapped.niitTax ∧
    lossResults.totalTax = lossResultsCapped.totalTax :=
  claim_C10_excess_losses lossInputs (by norm_num [lossInputs]) lossResults lossResultsCapped
    (by
      have hred : calculateTax lossInputs = some (coreResults 14600 1950
          data2024.taxBrackets.single ⟨47025, 518900⟩ 200000 lossInputs) := by
        simp only [calculateTax, TAX_YEAR_DATA, StatusMap.get, lossInputs, String.reduceEq,
          reduceIte, Option.bind_some, Option.some_bind]
        rfl
      rw [hred, lossResults]
      norm_num [coreResults, lossInputs, ordinaryTaxable, ordinaryGross, netCapitalGains,
        totalIncome, ltcgTaxable, deductionLeftoverForLTCG, zeroPortion, fifteenPortion,
        twentyPortion, capitalGainsTaxOf, niitTaxOf, netInvestmentIncome, niitExcess,
        magiApprox, calculateTaxFromBrackets, data2024, TaxResults.mk.injEq])
    (by
      have hred : calculateTax { lossInputs with capitalLosses := lossInputs.longTermCapitalGains }
          = some (coreResults 14600 1950 data2024.taxBrackets.single ⟨47025, 518900⟩ 200000
            { lossInputs with capitalLosses := lossInputs.longTermCapitalGains }) := by
        simp only [calculateTax, TAX_YEAR_DATA, StatusMap.get, lossInputs, String.reduceEq,
          reduceIte, Option.bind_some, Option.some_bind]
        rfl
      rw [hred, lossResultsCapped]
      norm_num [coreResults, lossInputs, ordinaryTaxable, ordinaryGross, netCapitalGains,
        totalIncome, ltcgTaxable, deductionLeftoverForLTCG, zeroPortion, fifteenPortion,
        twentyPortion, capitalGainsTaxOf, niitTaxOf, netInvestmentIncome, niitExcess,
        magiApprox, calculateTaxFromBrackets, data2024, TaxResults.mk.injEq])
